import Mathlib

/-!
Shallow embedding of the RAG core of the repository (in-memory vector store,
configuration validation, and the query/stream pipeline), with theorems about
the behaviour its specification claims.

Numeric modelling: the TypeScript code computes on IEEE doubles.  Scores and
embedding coordinates are modelled as exact rationals, and `Math.sqrt` is kept
as an explicit function parameter `sqrtQ` (the claims under study are about
the list-processing structure, not about floating-point rounding).  The
embedding function (`createSimpleEmbedding`) is likewise kept as a parameter:
the specification itself declares the embedding pluggable — "an embedding is
any deterministic text → fixed-length-vector function" — and models its
possible failure by an `Except` result, mirroring the `try/catch` blocks of
the source.
-/

namespace GroqRAG

/-- Chunk metadata, from the `DocumentChunk.metadata` field of types.ts:
`{source, page?, startIndex, endIndex}`. -/
structure ChunkMetadata where
  source : String
  page : Option Nat
  startIndex : Int
  endIndex : Int
deriving DecidableEq

/-- A document chunk `{id, content, metadata}` from types.ts. -/
structure DocumentChunk where
  id : String
  content : String
  metadata : ChunkMetadata
deriving DecidableEq

/-- One entry of `InMemoryVectorStore.documents`: the chunk together with its
stored embedding vector. -/
structure StoredChunk where
  chunk : DocumentChunk
  embedding : List ℚ
deriving DecidableEq

/-- The store state: the values of the `Map<string, DocumentChunk & {embedding}>`
in insertion order (a JS `Map` iterates in insertion order; chunk ids are the
keys, hence unique). -/
abbrev Store := List StoredChunk

/-- The dot product `a.reduce((sum, val, i) => sum + val * b[i], 0)` from
`cosineSimilarity` in vector-store.ts (vectors of equal length in the store). -/
def dotProduct (a b : List ℚ) : ℚ :=
  (List.zipWith (fun x y => x * y) a b).sum

/-- Sum of squares, the radicand of the magnitude computation in
`cosineSimilarity`. -/
def sumSquares (a : List ℚ) : ℚ :=
  (a.map (fun x => x * x)).sum

/-- Function `cosineSimilarity` from vector-store.ts: `dot / (|a| * |b|)`, and `0`
when either magnitude is zero.  `Math.sqrt` is the parameter `sqrtQ`. -/
def cosineSimilarity (sqrtQ : ℚ → ℚ) (a b : List ℚ) : ℚ :=
  let magA := sqrtQ (sumSquares a)
  let magB := sqrtQ (sumSquares b)
  if magA = 0 ∨ magB = 0 then 0 else dotProduct a b / (magA * magB)

/-- The order used by `.sort((a, b) => b.similarity - a.similarity)`: entry `a`
may precede entry `b` exactly when the score of `b` is at most that of `a`
(descending by score). -/
def simRel (a b : DocumentChunk × ℚ) : Prop := b.2 ≤ a.2

instance : DecidableRel simRel := fun a b => inferInstanceAs (Decidable (b.2 ≤ a.2))

/-- The similarity threshold `0.1` of `similaritySearch`. -/
def simThreshold : ℚ := 1 / 10

/-- Function `similaritySearch` from vector-store.ts, kept together with the scores
(the list the code builds just before the final `.map(item => item.chunk)`).
Empty store returns `[]`; a failing query embedding is rethrown as
`Search failed: ...`; otherwise every stored entry is scored, the list is
sorted descending by score, truncated to `k`, and entries with score `≤ 0.1`
are dropped. -/
def similaritySearchScored (embed : String → Except String (List ℚ)) (sqrtQ : ℚ → ℚ)
    (store : Store) (query : String) (k : Nat) :
    Except String (List (DocumentChunk × ℚ)) :=
  if store.length = 0 then Except.ok []
  else
    match embed query with
    | Except.error msg => Except.error ("Search failed: " ++ msg)
    | Except.ok queryEmbedding =>
        let similarities := store.map
          (fun d => (d.chunk, cosineSimilarity sqrtQ queryEmbedding d.embedding))
        Except.ok ((((List.insertionSort simRel similarities).take k).filter
          (fun p => decide (simThreshold < p.2))))

/-- Function `similaritySearch` as the caller sees it: the chunks of
`similaritySearchScored`, scores dropped by the final `.map`. -/
def similaritySearch (embed : String → Except String (List ℚ)) (sqrtQ : ℚ → ℚ)
    (store : Store) (query : String) (k : Nat) :
    Except String (List DocumentChunk) :=
  (similaritySearchScored embed sqrtQ store query k).map (List.map Prod.fst)

/-- Modelled from the spec words for `similaritySearch` (§4.3): "sort
descending by score, drop entries with score ≤ 0.1, return the first `k`" —
the threshold filter applied before the truncation to `k`.  Used only to be
compared with the source-order definition `similaritySearchScored`. -/
def specSimilaritySearchScored (embed : String → Except String (List ℚ)) (sqrtQ : ℚ → ℚ)
    (store : Store) (query : String) (k : Nat) :
    Except String (List (DocumentChunk × ℚ)) :=
  if store.length = 0 then Except.ok []
  else
    match embed query with
    | Except.error msg => Except.error ("Search failed: " ++ msg)
    | Except.ok queryEmbedding =>
        let similarities := store.map
          (fun d => (d.chunk, cosineSimilarity sqrtQ queryEmbedding d.embedding))
        Except.ok ((((List.insertionSort simRel similarities).filter
          (fun p => decide (simThreshold < p.2))).take k))

/-- JS `Map.set` on the insertion-ordered value list: an existing key is updated
in place (a JS `Map.set` keeps the original insertion position), a new key is
appended. -/
def mapSet (store : Store) (d : StoredChunk) : Store :=
  if store.any (fun e => e.chunk.id = d.chunk.id) then
    store.map (fun e => if e.chunk.id = d.chunk.id then d else e)
  else store ++ [d]

/-- The error surfaced when `addDocuments` fails on a chunk: the failing chunk
id (logged by `console.error` with the chunk id) and the thrown message
`Failed to add chunk: ...`. -/
structure AddError where
  chunkId : String
  message : String
deriving DecidableEq

/-- Function `addDocuments` from vector-store.ts: a `for` loop that embeds each
chunk and `Map.set`s it; a failing embedding throws out of the loop, so the
returned state keeps everything inserted so far and the error names the chunk
the loop stopped at. -/
def addDocuments (embed : String → Except String (List ℚ)) :
    Store → List DocumentChunk → Store × Option AddError
  | store, [] => (store, none)
  | store, c :: rest =>
      match embed c.content with
      | Except.ok e => addDocuments embed (mapSet store ⟨c, e⟩) rest
      | Except.error msg => (store, some ⟨c.id, "Failed to add chunk: " ++ msg⟩)

/-- Function `delete` of the store, from vector-store.ts: every key that
`startsWith(documentId)` is removed from the map; all other entries are kept
(in order). -/
def deleteDoc (store : Store) (documentId : String) : Store :=
  store.filter (fun d => ! d.chunk.id.startsWith documentId)

/-- Partial configuration `Partial<RAGConfig>`: every recognized field
optional, as handed to `validateConfig`. -/
structure PartialRAGConfig where
  groqApiKey : Option String := none
  model : Option String := none
  temperature : Option ℚ := none
  maxTokens : Option Int := none
  topK : Option Int := none
  chunkSize : Option Int := none
  chunkOverlap : Option Int := none
deriving DecidableEq

/-- JS truthiness of `config.groqApiKey?.trim()`: present and nonempty after
trimming. -/
def optTruthyStr (o : Option String) : Bool :=
  match o with
  | none => false
  | some s => s.trim ≠ ""

/-- JS truthiness of an optional number: present and nonzero (`0` is falsy). -/
def optTruthyQ (o : Option ℚ) : Bool :=
  match o with
  | none => false
  | some x => x ≠ 0

/-- JS truthiness of an optional integer field: present and nonzero. -/
def optTruthyInt (o : Option Int) : Bool :=
  match o with
  | none => false
  | some x => x ≠ 0

/-- Function `validateConfig` from config.ts, clause by clause.  Each numeric
check is guarded by the truthiness of the field (`config.maxTokens &&
config.maxTokens < 1` and so on), and there is no `chunkOverlap` clause in
the source. -/
def validateConfig (config : PartialRAGConfig) : List String :=
  let e1 : List String :=
    if optTruthyStr config.groqApiKey then [] else ["Groq API key is required"]
  let e2 : List String :=
    if optTruthyQ config.temperature ∧
        (config.temperature.getD 0 < 0 ∨ config.temperature.getD 0 > 1) then
      ["Temperature must be between 0 and 1"]
    else []
  let e3 : List String :=
    if optTruthyInt config.maxTokens ∧ config.maxTokens.getD 0 < 1 then
      ["Max tokens must be greater than 0"]
    else []
  let e4 : List String :=
    if optTruthyInt config.topK ∧ config.topK.getD 0 < 1 then
      ["Top K must be greater than 0"]
    else []
  let e5 : List String :=
    if optTruthyInt config.chunkSize ∧ config.chunkSize.getD 0 < 100 then
      ["Chunk size must be at least 100 characters"]
    else []
  e1 ++ e2 ++ e3 ++ e4 ++ e5

/-- One conversation exchange stored in `conversationHistory`. -/
structure QA where
  question : String
  answer : String
deriving DecidableEq

/-- Mutable state of `RAGPipeline` relevant to the claims: the vector store,
the conversation history, and the configured `topK`. -/
structure PipelineState where
  store : Store
  history : List QA
  topK : Nat
deriving DecidableEq

/-- The history update of `query`/`streamQuery`: `push` the new exchange, then
`if (length > 5) slice(-5)` — keep only the last 5. -/
def pushHistory (h : List QA) (qa : QA) : List QA :=
  let h2 := h ++ [qa]
  if h2.length > 5 then h2.drop (h2.length - 5) else h2

/-- Function `clearHistory` from rag-pipeline.ts. -/
def clearHistory (p : PipelineState) : PipelineState :=
  { p with history := [] }

/-- Function `clearKnowledgeBase` from rag-pipeline.ts: clears the store and the
history together. -/
def clearKnowledgeBase (p : PipelineState) : PipelineState :=
  { p with store := [], history := [] }

/-- Function `formatContextChunks` from prompts.ts: each chunk rendered with its index,
source (with the falsy-source fallback string Unknown) and optional
page (a page of `0` is falsy and rendered as absent), joined by the
separator. -/
def formatContextChunks (chunks : List DocumentChunk) : String :=
  String.intercalate "\n---\n\n"
    (chunks.enum.map (fun ic =>
      let source := if ic.2.metadata.source = "" then "Unknown" else ic.2.metadata.source
      let page :=
        match ic.2.metadata.page with
        | some n => if n = 0 then "" else " (Page " ++ toString n ++ ")"
        | none => ""
      "[Source " ++ toString (ic.1 + 1) ++ ": " ++ source ++ page ++ "]\n"
        ++ ic.2.content ++ "\n"))

/-- The `RAG_PROMPT_TEMPLATE` of prompts.ts with `{context}` and `{question}`
substituted. -/
def ragPromptTemplate (context question : String) : String :=
  "\nYou are a helpful AI assistant that answers questions based on the provided context. \nFollow these guidelines:\n\n1. Use ONLY the information from the provided context to answer questions\n2. If the context doesn\x27t contain enough information, clearly state this limitation\n3. Provide specific, accurate, and helpful answers\n4. Cite relevant parts of the context when possible\n5. If asked about something not in the context, politely explain you can only answer based on the provided documents\n\nContext:\n"
    ++ context ++ "\n\nQuestion: " ++ question
    ++ "\n\nAnswer: Let me help you based on the information provided in the documents.\n"

/-- Function `createConversationPrompt` from prompts.ts: the last 3 history turns (when
any) rendered as `Q:`/`A:` lines, then the formatted RAG template. -/
def createConversationPrompt (question context : String) (history : List QA) : String :=
  let pre :=
    if history.length > 0 then
      "Previous conversation:\n"
        ++ String.join ((history.drop (history.length - 3)).map
            (fun qa => "Q: " ++ qa.question ++ "\nA: " ++ qa.answer ++ "\n\n"))
        ++ "---\n\n"
    else ""
  pre ++ ragPromptTemplate context question

/-- JS `[...new Set(xs)]`: deduplication keeping the first occurrence of each
element, used for `QueryResult.sources`. -/
def dedupSources (l : List String) : List String :=
  l.foldl (fun acc s => if s ∈ acc then acc else acc ++ [s]) []

/-- The result record `RAGQuery` of a query (`id` and `timestamp` are produced
effectfully in the source and passed in here as values). -/
structure RAGQuery where
  id : String
  question : String
  context : List String
  answer : String
  timestamp : Nat
  sources : List String
deriving DecidableEq

/-- The fallback answer of `query()` when retrieval yields no chunks. -/
def fallbackAnswerQuery : String :=
  "I don\x27t have any relevant information in my knowledge base to answer your question. Please try uploading relevant documents first."

/-- The fallback answer of `streamQuery()` when retrieval yields no chunks. -/
def fallbackAnswerStream : String :=
  "I don\x27t have any relevant information in my knowledge base to answer your question."

/-- Function `retrieveContext` from rag-pipeline.ts: `similaritySearch(question, topK)`
with any thrown error caught and recovered as the empty chunk list. -/
def retrieveContext (embed : String → Except String (List ℚ)) (sqrtQ : ℚ → ℚ)
    (p : PipelineState) (question : String) : List DocumentChunk :=
  match similaritySearch embed sqrtQ p.store question p.topK with
  | Except.ok chunks => chunks
  | Except.error _ => []

/-- Function `query` from rag-pipeline.ts.  `generate` is the LLM provider
call (fallible, modelled as `Except`).  On the empty-retrieval path the fixed
fallback result is returned and the state is untouched; otherwise the prompt
is built, the backend invoked, the result assembled with deduplicated
sources, and the exchange pushed onto the capped history. -/
def query (embed : String → Except String (List ℚ)) (sqrtQ : ℚ → ℚ)
    (generate : String → Except String String)
    (queryId : String) (now : Nat) (p : PipelineState) (question : String) :
    Except String (PipelineState × RAGQuery) :=
  let relevantChunks := retrieveContext embed sqrtQ p question
  if relevantChunks.length = 0 then
    Except.ok (p,
      { id := queryId, question := question, context := [],
        answer := fallbackAnswerQuery, timestamp := now, sources := [] })
  else
    let formattedContext := formatContextChunks relevantChunks
    let prompt := createConversationPrompt question formattedContext p.history
    match generate prompt with
    | Except.error e => Except.error ("Query failed: " ++ e)
    | Except.ok answer =>
        let result : RAGQuery :=
          { id := queryId, question := question,
            context := relevantChunks.map (fun c => c.content),
            answer := answer, timestamp := now,
            sources := dedupSources (relevantChunks.map (fun c => c.metadata.source)) }
        Except.ok ({ p with history := pushHistory p.history ⟨question, answer⟩ }, result)

/-- Event type of the values yielded by the `streamQuery` async generator. -/
inductive StreamEventType where
  | context
  | answer
deriving DecidableEq

/-- One yielded value of `streamQuery`: `{type, content}`. -/
structure StreamEvent where
  type : StreamEventType
  content : String
deriving DecidableEq

/-- Model of `GroqLLMProvider.stream`: the backend fragments are forwarded, but a falsy
(empty) `chunk.content` is skipped by the `if (chunk.content)` guard. -/
def providerStream (raw : List String) : List String :=
  raw.filter (fun s => s ≠ "")

/-- The complete sequence of events the `streamQuery` generator yields, in
order, translated from the body of `streamQuery` in rag-pipeline.ts:
a search notice; then, on the empty-retrieval path, the fallback answer; on
the found path, the found notice followed by one answer event per streamed
fragment. -/
def streamQueryYields (embed : String → Except String (List ℚ)) (sqrtQ : ℚ → ℚ)
    (p : PipelineState) (question : String) (raw : List String) : List StreamEvent :=
  let relevantChunks := retrieveContext embed sqrtQ p question
  if relevantChunks.length = 0 then
    [⟨StreamEventType.context, "Searching knowledge base..."⟩,
     ⟨StreamEventType.answer, fallbackAnswerStream⟩]
  else
    [⟨StreamEventType.context, "Searching knowledge base..."⟩,
     ⟨StreamEventType.context,
       "Found " ++ toString relevantChunks.length
         ++ " relevant document(s). Generating response..."⟩]
      ++ (providerStream raw).map (fun f => ⟨StreamEventType.answer, f⟩)

/-- The history effect the `streamQuery` generator body performs after its
last yield: on the empty-retrieval path the body returns without touching
the history; on the found path it pushes `(question, fullAnswer)` onto the
capped history, where `fullAnswer` is the concatenation of the streamed
fragments.  This statement sits after the fragment loop in the source, so it
runs only once every fragment has been yielded. -/
def streamQueryFinalEffect (embed : String → Except String (List ℚ)) (sqrtQ : ℚ → ℚ)
    (p : PipelineState) (question : String) (raw : List String) : List QA → List QA :=
  let relevantChunks := retrieveContext embed sqrtQ p question
  if relevantChunks.length = 0 then id
  else fun h => pushHistory h ⟨question, String.join (providerStream raw)⟩

/-- Consumer-driven semantics of the async generator: a consumer that performs
`pulls` pulls receives the first `pulls` yielded events; the code between two
yields runs on the pull that crosses it, so the post-loop history push runs
exactly on the pull that goes past the final yield (the pull that reports
`done`).  The pair is (events delivered, history afterwards). -/
def streamQueryConsume (embed : String → Except String (List ℚ)) (sqrtQ : ℚ → ℚ)
    (p : PipelineState) (question : String) (raw : List String) (pulls : Nat) :
    List StreamEvent × List QA :=
  let yields := streamQueryYields embed sqrtQ p question raw
  (yields.take pulls,
   if pulls ≤ yields.length then p.history
   else streamQueryFinalEffect embed sqrtQ p question raw p.history)

/-- An embedding function that succeeds on every text with the vector `[1]`
(the one-dimensional unit vector); instantiates the pluggable embedding
parameter in concrete runs. -/
def embedOne : String → Except String (List ℚ) := fun _ => Except.ok [1]

/-- An embedding function that always fails, modelling a throwing store
dependency. -/
def embedFail : String → Except String (List ℚ) := fun _ => Except.error "boom"

/-- An embedding function that fails exactly on the text `"BAD"` and returns
`[1]` otherwise. -/
def embedBad : String → Except String (List ℚ) := fun s =>
  if s = "BAD" then Except.error "Unknown error" else Except.ok [1]

/-- A square-root instantiation that is exact on the inputs of the concrete
runs below (all magnitudes there are `0` or `1`, and `Math.sqrt` is exact on
both). -/
def sqrtId : ℚ → ℚ := fun x => x

/-- Metadata of the concrete chunks of document `doc1`. -/
def metaA : ChunkMetadata := ⟨"doc1", none, 0, 5⟩

/-- A concrete chunk of `doc1`. -/
def chunkA : DocumentChunk := ⟨"doc1_chunk_0", "alpha", metaA⟩

/-- A second chunk of `doc1` with the same content as `chunkA` (hence the same
embedding under any embedding function). -/
def chunkB : DocumentChunk := ⟨"doc1_chunk_1", "alpha", metaA⟩

/-- A chunk of `doc1` whose content makes `embedBad` fail. -/
def chunkBad : DocumentChunk := ⟨"doc1_chunk_2", "BAD", metaA⟩

/-- A chunk of a second document. -/
def chunkC : DocumentChunk := ⟨"doc2_chunk_0", "gamma", ⟨"doc2", none, 0, 5⟩⟩

/-- A store holding one chunk with embedding `[1]`. -/
def storeOne : Store := [⟨chunkA, [1]⟩]

/-- A store holding two chunks with identical embeddings `[1]` (as produced by
adding two chunks with identical content). -/
def storeTwo : Store := [⟨chunkA, [1]⟩, ⟨chunkB, [1]⟩]

/-- A pipeline state with an empty store and empty history. -/
def stateEmpty : PipelineState := ⟨[], [], 4⟩

/-- A pipeline state over `storeOne` with empty history. -/
def stateOne : PipelineState := ⟨storeOne, [], 4⟩

/-- A generation backend that always answers `"answer"`. -/
def genOk : String → Except String String := fun _ => Except.ok "answer"

/-- The configuration used as the failing input of claim C2: credential absent,
`maxTokens = 0`, `topK = 0`, and `chunkOverlap = 500 ≥ 200 = chunkSize`. -/
def badConfigC2 : PartialRAGConfig :=
  { groqApiKey := none, maxTokens := some 0, topK := some 0,
    chunkSize := some 200, chunkOverlap := some 500 }

/-- A configuration with three invalid fields the code does recognize,
exercising error aggregation. -/
def multiBadConfig : PartialRAGConfig :=
  { groqApiKey := none, temperature := some 2, chunkSize := some 50 }

instance : IsTotal (DocumentChunk × ℚ) simRel :=
  ⟨fun a b => le_total b.2 a.2⟩

instance : IsTrans (DocumentChunk × ℚ) simRel :=
  ⟨fun _ _ _ hab hbc => le_trans hbc hab⟩

/-- The list built by the JS comparator sort is sorted descending by score. -/
lemma sorted_simRel_insertionSort (l : List (DocumentChunk × ℚ)) :
    (List.insertionSort simRel l).Sorted simRel :=
  List.sorted_insertionSort simRel l

/-- Over a list sorted descending by score, filtering by a strict lower
threshold commutes with truncation: the entries above the threshold form a
downward-closed region of the sorted list. -/
lemma filter_take_of_sorted (c : ℚ) (l : List (DocumentChunk × ℚ))
    (hl : l.Sorted simRel) (k : Nat) :
    (l.take k).filter (fun p => decide (c < p.2)) =
      (l.filter (fun p => decide (c < p.2))).take k := by
  induction l generalizing k with
  | nil => simp
  | cons x xs ih =>
    rcases List.sorted_cons.mp hl with ⟨hx, hxs⟩
    cases k with
    | zero => simp
    | succ k =>
      by_cases hpx : c < x.2
      · simp [List.filter_cons, hpx, ih hxs k]
      · have hall : ∀ b ∈ xs, ¬ (c < b.2) := fun b hb hc =>
          hpx (lt_of_lt_of_le hc (hx b hb))
        have h1 : (xs.take k).filter (fun p => decide (c < p.2)) = [] :=
          List.filter_eq_nil_iff.mpr (fun a ha => by
            simpa using hall a (List.take_subset k xs ha))
        have h2 : xs.filter (fun p => decide (c < p.2)) = [] :=
          List.filter_eq_nil_iff.mpr (fun a ha => by simpa using hall a ha)
        simp [List.filter_cons, hpx, h1, h2]

/-- C1: for every store state, query string and k, `similaritySearch` agrees
with the specified filter-before-truncation semantics. -/
theorem C1_filter_before_truncation (embed : String → Except String (List ℚ))
    (sqrtQ : ℚ → ℚ) (store : Store) (q : String) (k : Nat) :
    similaritySearchScored embed sqrtQ store q k =
      specSimilaritySearchScored embed sqrtQ store q k ∧
    similaritySearch embed sqrtQ store q k =
      (specSimilaritySearchScored embed sqrtQ store q k).map (List.map Prod.fst) := by
  have main : similaritySearchScored embed sqrtQ store q k =
      specSimilaritySearchScored embed sqrtQ store q k := by
    unfold similaritySearchScored specSimilaritySearchScored
    by_cases hlen : store.length = 0
    · simp [hlen]
    · simp only [hlen, if_false]
      cases he : embed q with
      | error msg => rfl
      | ok qe =>
        simp only []
        congr 1
        exact filter_take_of_sorted simThreshold _
          (sorted_simRel_insertionSort _) k
  exact ⟨main, by unfold similaritySearch; rw [main]⟩

/-- C3 (amended): for any populated store and any k, a successful
`similaritySearch` returns at most k results, every returned result scores
strictly above the 0.1 threshold, and the sequence is sorted descending by
score (not strictly: ties are possible and kept). -/
theorem C3_search_bounds_and_order (embed : String → Except String (List ℚ))
    (sqrtQ : ℚ → ℚ) (store : Store) (q : String) (k : Nat)
    (res : List (DocumentChunk × ℚ))
    (_hpop : store ≠ [])
    (h : similaritySearchScored embed sqrtQ store q k = Except.ok res) :
    res.length ≤ k ∧ (∀ p ∈ res, simThreshold < p.2) ∧ res.Sorted simRel := by
  unfold similaritySearchScored at h
  by_cases hlen : store.length = 0
  · simp [hlen] at h
    subst h
    simp
  · simp only [hlen, if_false] at h
    cases he : embed q with
    | error msg => rw [he] at h; exact absurd h (by simp)
    | ok qe =>
      rw [he] at h
      simp only [Except.ok.injEq] at h
      subst h
      refine ⟨?_, ?_, ?_⟩
      · calc (((List.insertionSort simRel _).take k).filter _).length
            ≤ ((List.insertionSort simRel _).take k).length :=
              List.length_filter_le _ _
          _ ≤ k := List.length_take_le k _
      · intro p hp
        have := (List.mem_filter.mp hp).2
        simpa using this
      · exact List.Pairwise.sublist
          ((List.filter_sublist _).trans (List.take_sublist k _))
          (sorted_simRel_insertionSort _)

/-- C3 counterexample: over a store holding two chunks with identical
embeddings (as produced by two chunks with the same content), the search
returns both with the same score 1, so the returned sequence is not sorted
strictly descending and two results share a score. -/
theorem C3_counterexample :
    similaritySearchScored embedOne sqrtId storeTwo "hello" 2 =
      Except.ok [(chunkA, 1), (chunkB, 1)] ∧
    ¬ List.Pairwise (fun a b : DocumentChunk × ℚ => b.2 < a.2)
        [(chunkA, 1), (chunkB, 1)] := by
  constructor
  · simp only [similaritySearchScored, storeTwo, embedOne, sqrtId,
      cosineSimilarity, sumSquares, dotProduct, simThreshold, simRel,
      List.insertionSort, List.orderedInsert, List.map, List.length,
      List.take, List.filter, List.sum, List.zipWith]
    norm_num
  · intro hpw
    have := (List.pairwise_cons.mp hpw).1 (chunkB, 1) (by simp)
    exact absurd this (by norm_num)

/-- C3 witness: the amended theorem applied to a concrete one-chunk store. -/
theorem C3_search_bounds_and_order_witness :
    [(chunkA, (1 : ℚ))].length ≤ 1 ∧
    (∀ p ∈ [(chunkA, (1 : ℚ))], simThreshold < p.2) ∧
    List.Sorted simRel [(chunkA, (1 : ℚ))] :=
  C3_search_bounds_and_order embedOne sqrtId storeOne "q" 1 _
    (by simp [storeOne])
    (by
      simp only [similaritySearchScored, storeOne, embedOne, sqrtId,
        cosineSimilarity, sumSquares, dotProduct, simThreshold, simRel,
        List.insertionSort, List.orderedInsert, List.map, List.length,
        List.take, List.filter, List.sum, List.zipWith]
      norm_num)

/-- C2: evaluating `validateConfig` at a configuration with `maxTokens = 0`,
`topK = 0` and `chunkOverlap = 500 ≥ 200 = chunkSize` yields no error for any
of those fields (only the missing-credential error), while a configuration
with several recognized invalid fields shows that recognized errors are
aggregated rather than reported fail-fast. -/
theorem C2_unflagged_fields_eval :
    validateConfig badConfigC2 = ["Groq API key is required"] ∧
    validateConfig multiBadConfig =
      ["Groq API key is required", "Temperature must be between 0 and 1",
       "Chunk size must be at least 100 characters"] := by
  constructor
  · decide
  · decide

/-- C4: a consumer that stops pulling at or before the last yielded fragment
(cancellation after any number of fragments) leaves the conversation history
exactly as it was before the call: the history push sits after the whole
fragment loop and only runs on the pull that exhausts the generator. -/
theorem C4_cancelled_stream_preserves_history
    (embed : String → Except String (List ℚ)) (sqrtQ : ℚ → ℚ)
    (p : PipelineState) (question : String) (raw : List String) (m : Nat)
    (hm : m ≤ (streamQueryYields embed sqrtQ p question raw).length) :
    (streamQueryConsume embed sqrtQ p question raw m).2 = p.history := by
  simp [streamQueryConsume, hm]

/-- C4 witness: cancelling after 2 events over the empty-store state. -/
theorem C4_cancelled_stream_preserves_history_witness :
    (streamQueryConsume embedOne sqrtId stateEmpty "q" ["x", "y"] 2).2 =
      stateEmpty.history :=
  C4_cancelled_stream_preserves_history embedOne sqrtId stateEmpty "q"
    ["x", "y"] 2 (by decide)

/-- C5: the conversation history is bounded by 5 across the operations that
touch it — a capped push always yields at most 5 entries, `query` and any
consumption of `streamQuery` preserve the bound, the clearing operations
empty it — and pushing a 6th exchange evicts the oldest: six sequential
successful exchanges leave exactly the last five, in order. -/
theorem C5_history_capacity :
    (∀ h qa, (pushHistory h qa).length ≤ 5) ∧
    (∀ embed sqrtQ generate queryId now p question p2 r,
      p.history.length ≤ 5 →
      query embed sqrtQ generate queryId now p question = Except.ok (p2, r) →
      p2.history.length ≤ 5) ∧
    (∀ embed sqrtQ p question raw pulls,
      p.history.length ≤ 5 →
      (streamQueryConsume embed sqrtQ p question raw pulls).2.length ≤ 5) ∧
    (∀ p, (clearHistory p).history.length ≤ 5 ∧
      (clearKnowledgeBase p).history.length ≤ 5) ∧
    (∀ q1 a1 q2 a2 q3 a3 q4 a4 q5 a5 q6 a6 : String,
      pushHistory (pushHistory (pushHistory (pushHistory (pushHistory
          (pushHistory [] ⟨q1, a1⟩) ⟨q2, a2⟩) ⟨q3, a3⟩) ⟨q4, a4⟩) ⟨q5, a5⟩)
          ⟨q6, a6⟩ =
        [⟨q2, a2⟩, ⟨q3, a3⟩, ⟨q4, a4⟩, ⟨q5, a5⟩, ⟨q6, a6⟩]) := by
  have hpush : ∀ (h : List QA) (qa : QA), (pushHistory h qa).length ≤ 5 := by
    intro h qa
    unfold pushHistory
    by_cases hl : (h ++ [qa]).length > 5
    · simp only [hl, if_true, List.length_drop]
      omega
    · simp only [hl, if_false]
      omega
  refine ⟨hpush, ?_, ?_, ?_, ?_⟩
  · intro embed sqrtQ generate queryId now p question p2 r hlen hq
    unfold query at hq
    by_cases hz : (retrieveContext embed sqrtQ p question).length = 0
    · simp only [hz, if_true, Except.ok.injEq, Prod.mk.injEq] at hq
      rw [← hq.1]
      exact hlen
    · simp only [hz, if_false] at hq
      cases hg : generate (createConversationPrompt question
          (formatContextChunks (retrieveContext embed sqrtQ p question))
          p.history) with
      | error e => rw [hg] at hq; exact absurd hq (by simp)
      | ok answer =>
        rw [hg] at hq
        simp only [Except.ok.injEq, Prod.mk.injEq] at hq
        rw [← hq.1]
        exact hpush _ _
  · intro embed sqrtQ p question raw pulls hlen
    unfold streamQueryConsume
    by_cases hp : pulls ≤ (streamQueryYields embed sqrtQ p question raw).length
    · simpa [hp] using hlen
    · simp only [hp, if_false]
      unfold streamQueryFinalEffect
      by_cases hz : (retrieveContext embed sqrtQ p question).length = 0
      · simpa [hz] using hlen
      · simp only [hz, if_false]
        exact hpush _ _
  · intro p
    exact ⟨by simp [clearHistory], by simp [clearKnowledgeBase]⟩
  · intro q1 a1 q2 a2 q3 a3 q4 a4 q5 a5 q6 a6
    rfl

/-- C5 witness: the stream-consumption bound applied to a concrete state. -/
theorem C5_history_capacity_witness :
    (streamQueryConsume embedOne sqrtId stateEmpty "q" [] 0).2.length ≤ 5 :=
  C5_history_capacity.2.2.1 embedOne sqrtId stateEmpty "q" [] 0 (by decide)

/-- C6: when retrieval yields no chunks — in particular over an empty store —
`query` succeeds with the fixed fallback answer, empty context and empty
sources, rather than raising an error. -/
theorem C6_empty_retrieval_fallback (embed : String → Except String (List ℚ))
    (sqrtQ : ℚ → ℚ) (generate : String → Except String String)
    (queryId : String) (now : Nat) (p : PipelineState) (question : String) :
    (p.store = [] → retrieveContext embed sqrtQ p question = []) ∧
    (retrieveContext embed sqrtQ p question = [] →
      query embed sqrtQ generate queryId now p question =
        Except.ok (p,
          { id := queryId, question := question, context := [],
            answer := fallbackAnswerQuery, timestamp := now, sources := [] })) := by
  constructor
  · intro hstore
    simp [retrieveContext, similaritySearch, similaritySearchScored, hstore,
      Except.map]
  · intro hret
    unfold query
    rw [hret]
    simp

/-- C6 witness: a query over the empty-store state. -/
theorem C6_empty_retrieval_fallback_witness :
    query embedOne sqrtId genOk "id0" 0 stateEmpty "q" =
      Except.ok (stateEmpty,
        { id := "id0", question := "q", context := [],
          answer := fallbackAnswerQuery, timestamp := 0, sources := [] }) :=
  (C6_empty_retrieval_fallback embedOne sqrtId genOk "id0" 0 stateEmpty "q").2
    (by rfl)

/-- C7: if the vector store raises from `similaritySearch`, the query does not fail: it
returns the same successful empty-context fallback result as a query that
retrieved zero chunks. -/
theorem C7_store_failure_degrades (embed : String → Except String (List ℚ))
    (sqrtQ : ℚ → ℚ) (generate : String → Except String String)
    (queryId : String) (now : Nat) (p : PipelineState) (question : String)
    (e : String)
    (h : similaritySearch embed sqrtQ p.store question p.topK = Except.error e) :
    query embed sqrtQ generate queryId now p question =
      Except.ok (p,
        { id := queryId, question := question, context := [],
          answer := fallbackAnswerQuery, timestamp := now, sources := [] }) := by
  have hret : retrieveContext embed sqrtQ p question = [] := by
    unfold retrieveContext
    rw [h]
  unfold query
  rw [hret]
  simp

/-- C7 witness: a failing embedding over a nonempty store makes
`similaritySearch` raise, and the query still returns the fallback result. -/
theorem C7_store_failure_degrades_witness :
    query embedFail sqrtId genOk "id0" 0 stateOne "q" =
      Except.ok (stateOne,
        { id := "id0", question := "q", context := [],
          answer := fallbackAnswerQuery, timestamp := 0, sources := [] }) :=
  C7_store_failure_degrades embedFail sqrtId genOk "id0" 0 stateOne "q"
    "Search failed: boom" (by rfl)

/-- C8 counterexample: in a batch whose second chunk fails to embed, the third
chunk — whose own embedding would succeed — is not inserted either: the
failure aborts the rest of the batch, not only the failing chunk.  The first
chunk stays committed and the surfaced error names the failing chunk. -/
theorem C8_counterexample :
    addDocuments embedBad [] [chunkA, chunkBad, chunkC] =
      ([⟨chunkA, [1]⟩],
        some ⟨"doc1_chunk_2", "Failed to add chunk: Unknown error"⟩) ∧
    embedBad chunkC.content = Except.ok [1] ∧
    (∀ e ∈ (addDocuments embedBad [] [chunkA, chunkBad, chunkC]).1,
      e.chunk.id ≠ chunkC.id) := by
  refine ⟨by rfl, by rfl, ?_⟩
  intro e he
  have : e = ⟨chunkA, [1]⟩ := by
    have h1 : (addDocuments embedBad [] [chunkA, chunkBad, chunkC]).1 =
        [⟨chunkA, [1]⟩] := by rfl
    rw [h1] at he
    simpa using he
  rw [this]
  decide

/-- C8 (amended): when the embedding fails at one chunk of a batch (all
earlier chunks embedding successfully), the chunks before it remain committed
— the store is exactly the store obtained by adding just that earlier part —
the surfaced error names the failing chunk, and the failing chunk together
with the rest of the batch is not inserted. -/
theorem C8_partial_batch_commit (embed : String → Except String (List ℚ))
    (store : Store) (pre : List DocumentChunk) (c : DocumentChunk)
    (post : List DocumentChunk) (msg : String)
    (hok : ∀ x ∈ pre, ∃ v, embed x.content = Except.ok v)
    (hfail : embed c.content = Except.error msg) :
    addDocuments embed store (pre ++ c :: post) =
      ((addDocuments embed store pre).1,
        some ⟨c.id, "Failed to add chunk: " ++ msg⟩) := by
  induction pre generalizing store with
  | nil => simp [addDocuments, hfail]
  | cons x xs ih =>
    obtain ⟨v, hv⟩ := hok x (by simp)
    simp only [List.cons_append, addDocuments, hv]
    exact ih (mapSet store ⟨x, v⟩) (fun y hy => hok y (by simp [hy]))

/-- C8 witness: the amended theorem applied to the concrete failing batch. -/
theorem C8_partial_batch_commit_witness :
    addDocuments embedBad [] ([chunkA] ++ chunkBad :: [chunkC]) =
      ((addDocuments embedBad [] [chunkA]).1,
        some ⟨chunkBad.id, "Failed to add chunk: " ++ "Unknown error"⟩) :=
  C8_partial_batch_commit embedBad [] [chunkA] chunkBad [chunkC]
    "Unknown error"
    (by intro x hx; refine ⟨[1], ?_⟩; simp at hx; rw [hx]; rfl)
    (by rfl)

/-- C9: `delete(documentId)` removes exactly the entries whose chunk id starts
with the document id, keeps every other entry — chunk content, metadata and
embedding untouched — and preserves the store order. -/
theorem C9_delete_exact (store : Store) (documentId : String) :
    (∀ d : StoredChunk, d ∈ deleteDoc store documentId ↔
      (d ∈ store ∧ d.chunk.id.startsWith documentId = false)) ∧
    (deleteDoc store documentId).Sublist store := by
  constructor
  · intro d
    simp [deleteDoc, List.mem_filter]
  · exact List.filter_sublist store

/-- C10: on the no-chunks-retrieved path, neither `query` nor any consumption
of `streamQuery` — cancelled or exhausted — changes the conversation history:
the fallback answer is never folded into memory. -/
theorem C10_fallback_leaves_history (embed : String → Except String (List ℚ))
    (sqrtQ : ℚ → ℚ) (generate : String → Except String String)
    (queryId : String) (now : Nat) (p : PipelineState) (question : String)
    (raw : List String) :
    (retrieveContext embed sqrtQ p question = [] →
      ∀ p2 r, query embed sqrtQ generate queryId now p question =
          Except.ok (p2, r) →
        p2.history = p.history) ∧
    (retrieveContext embed sqrtQ p question = [] →
      ∀ pulls, (streamQueryConsume embed sqrtQ p question raw pulls).2 =
        p.history) := by
  constructor
  · intro hret p2 r hq
    unfold query at hq
    rw [hret] at hq
    simp only [List.length_nil, if_true, Except.ok.injEq, Prod.mk.injEq] at hq
    rw [← hq.1]
  · intro hret pulls
    unfold streamQueryConsume streamQueryFinalEffect
    rw [hret]
    simp

/-- C10 witness: full consumption (7 pulls, past exhaustion) of a fallback
stream over the empty-store state leaves the history unchanged. -/
theorem C10_fallback_leaves_history_witness :
    (streamQueryConsume embedOne sqrtId stateEmpty "q" ["x"] 7).2 =
      stateEmpty.history :=
  (C10_fallback_leaves_history embedOne sqrtId genOk "id0" 0 stateEmpty "q"
    ["x"]).2 (by rfl) 7

end GroqRAG
